import Mathlib

/-!
Shallow embedding of the bundle-rescue core (Go repository) for checking the
natural-language specification against the code.

The embedding models:
* the per-attempt bundle planner and run loop of `Run` (src/unnamed/part_015),
* the inclusion monitor `waitInclusionOrCompete` (src/unnamed/part_015),
* the pause probe `CheckPaused` (src/unnamed/part_012),
* the delegated-code preflight `PreflightTransfer7702` and
  `simulateTransferWithOverride` (src/internal/bundlecore/preflight7702.go),
* the relay auth-header digest computations (src/unnamed/part_017,
  src/internal/flashbots/relay.go, src/internal/bundlecore/mevrelay.go).

Modelling conventions: Go `big.Int` becomes `Int` with `Int.ediv` for `Div`
(Go big.Int division is Euclidean), `uint64` becomes `Nat`, RPC results that
can fail become `Option`, and `float64` arithmetic (tip escalation) is
modelled exactly by unnormalized integer fractions (`Frac`), with Go
`math.Round` as round-half-away-from-zero.  Addresses are abstracted as
`Nat`.
-/

/-- Exact fractions `num / den` with positive intended denominator, used to
model the `float64` tip arithmetic without rounding error.  Comparisons are
by cross multiplication, so they agree with the rational value whenever the
denominators are positive. -/
structure Frac where
  num : Int
  den : Int
deriving DecidableEq, Repr

/-- Embed an integer as a fraction. -/
def Frac.ofInt (n : Int) : Frac := ⟨n, 1⟩

/-- Product of fractions (no normalization). -/
def Frac.mul (a b : Frac) : Frac := ⟨a.num * b.num, a.den * b.den⟩

/-- Sum of fractions (no normalization). -/
def Frac.add (a b : Frac) : Frac :=
  ⟨a.num * b.den + b.num * a.den, a.den * b.den⟩

/-- Power of a fraction. -/
def Frac.pow (a : Frac) : Nat → Frac
  | 0 => ⟨1, 1⟩
  | n + 1 => (Frac.pow a n).mul a

/-- Value order by cross multiplication. -/
def Frac.le (a b : Frac) : Bool := decide (a.num * b.den ≤ b.num * a.den)

/-- Strict value order by cross multiplication. -/
def Frac.lt (a b : Frac) : Bool := decide (a.num * b.den < b.num * a.den)

/-- Value equality by cross multiplication. -/
def Frac.eqv (a b : Frac) : Bool := a.num * b.den == b.num * a.den

/-- Floor of the value (Euclidean division; exact for positive
denominators). -/
def Frac.floor (a : Frac) : Int := Int.ediv a.num a.den

/-- Truncation of the value toward zero, as `big.Float.Int` does. -/
def Frac.trunc (a : Frac) : Int := Int.tdiv a.num a.den

/-- Wei/gas quantities and addresses. -/
abbrev Wei := Int

/-- Which key signs a transaction: the sponsor (SAFE) or the compromised EOA. -/
inductive Sender where
  | sponsor
  | compromised
deriving DecidableEq, Repr

/-- Calldata shapes occurring in a plan: empty data, an ERC-20
`transfer(to, amount)` call, or the two-byte bribe init code. -/
inductive TxData where
  | empty
  | erc20Transfer (dest : Nat) (amount : Int)
  | bribeInit
deriving DecidableEq, Repr

/-- A dynamic-fee transaction as assembled by `buildDynamicTx` in the source:
nonce, recipient (`none` = contract creation), value, gas limit, tip and fee
cap, and calldata, tagged by the signing key. -/
structure Tx where
  sender : Sender
  nonce : Nat
  dest : Option Nat
  value : Wei
  gas : Nat
  tip : Wei
  feeCap : Wei
  data : TxData
deriving DecidableEq, Repr

/-- Parameters of one run, mirroring the fields of `Params` that the claims
touch (src/unnamed/part_015 `Run`). -/
structure Params where
  amountWei : Option Int
  relays : List String
  blocks : Int
  tipGweiBase : Int
  tipMul : Frac
  baseMul : Int
  bufferPct : Int
  tipMode : String
  bribeWei : Option Int
  bribeGasLimit : Nat
  simulateOnly : Bool
  skipIfPaused : Bool
  token : Nat
  fromAddr : Nat
  toAddr : Nat
deriving DecidableEq, Repr

/-- What the chain and fee RPCs returned during one attempt of the loop in
`Run`.  `none` models a call that returned an error (or, for
`tokenBalance`, a result shorter than 32 bytes). -/
structure AttemptEnv where
  feeHistBase : Option Int
  headerNum : Option Nat
  fallbackBase : Option (Int × Nat)
  latestNonce : Nat
  pendingNonce : Nat
  tipFeeHist : Option Int
  suggest : Option Int
  tokenBalance : Option Int
  gasEstimate : Option Nat
  safeNonce : Nat
  safeBalance : Int
  simOK : Bool
  nonceRecheck : Nat
deriving DecidableEq, Repr

/-- Parameter normalization at the top of `Run`: defaults for blocks, base
tip, tip multiplier, base-fee multiplier and buffer. -/
def normalizeParams (p : Params) : Params :=
  { p with
    blocks := if p.blocks ≤ 0 then 6 else p.blocks
    tipGweiBase := if p.tipGweiBase ≤ 0 then 3 else p.tipGweiBase
    tipMul := if p.tipMul.le (Frac.ofInt 0) then ⟨6, 5⟩ else p.tipMul
    baseMul := if p.baseMul ≤ 0 then 2 else p.baseMul
    bufferPct := if p.bufferPct < 0 then 0 else p.bufferPct }

/-- Go `math.Round`: round to nearest, halves away from zero. -/
def goRound (q : Frac) : Int :=
  if q.lt (Frac.ofInt 0) then -(Frac.floor ((Frac.mk (-q.num) q.den).add ⟨1, 2⟩))
  else Frac.floor (q.add ⟨1, 2⟩)

/-- ASCII lowering of a string, as `strings.ToLower` acts on the ASCII mode
names compared here. -/
def lowerAscii (s : String) : List Char :=
  s.data.map (fun c =>
    if 65 ≤ c.toNat ∧ c.toNat ≤ 90 then Char.ofNat (c.toNat + 32) else c)

/-- `gweiToWei` from the source: multiply by 10^9. -/
def gweiToWei (g : Int) : Wei := g * 1000000000

/-- Base fee and head-number resolution at the top of each attempt: prefer
`nextBaseFeeViaFeeHistory` (head from `HeaderByNumber`, defaulting to 0 on
error), falling back to `latestBaseFee`; `none` means the attempt errors
out. -/
def resolveBaseHead (e : AttemptEnv) : Option (Int × Nat) :=
  match e.feeHistBase with
  | some bf => some (bf, e.headerNum.getD 0)
  | none => e.fallbackBase

/-- Target block of attempt `i`: resolved head plus `1 + i`. -/
def targetBlockOf (i : Nat) (e : AttemptEnv) : Option Nat :=
  (resolveBaseHead e).map (fun x => x.2 + 1 + i)

/-- The effective base tip in gwei of the fixed-escalation branch:
the maximum of the suggested priority fee (integer-divided into gwei) and
the configured base tip. -/
def fixedTipGweiBase (p : Params) (e : AttemptEnv) : Int :=
  match e.suggest with
  | none => p.tipGweiBase
  | some s =>
      let g := Int.ediv s 1000000000
      if p.tipGweiBase < g then g else p.tipGweiBase

/-- The fixed-escalation tip in gwei (the "old fixed logic" branch): the
effective base tip scaled by `tipMul ^ attempt`, rounded, clamped back to
the configured base tip when below 1. -/
def fixedTipGweiScaled (p : Params) (e : AttemptEnv) (i : Nat) : Int :=
  let scaled := goRound ((Frac.ofInt (fixedTipGweiBase p e)).mul (p.tipMul.pow i))
  if scaled < 1 then p.tipGweiBase else scaled

/-- The per-attempt priority tip in wei, covering both tip modes of `Run`:
the `feehist` mode (maximum fee-history reward, scaled by `tipMul ^ attempt`
when the multiplier is neither 0 nor 1, truncated) with fallback to the
fixed logic, and the fixed logic itself otherwise. -/
def tipWeiOf (p : Params) (e : AttemptEnv) (i : Nat) : Wei :=
  if lowerAscii p.tipMode = "feehist".data then
    match e.tipFeeHist with
    | some t =>
        if 0 < t then
          if (Frac.ofInt 0).lt p.tipMul ∧ ¬ p.tipMul.eqv (Frac.ofInt 1) then
            Frac.trunc ((Frac.ofInt t).mul (p.tipMul.pow i))
          else t
        else gweiToWei (fixedTipGweiScaled p e i)
    | none => gweiToWei (fixedTipGweiScaled p e i)
  else gweiToWei (fixedTipGweiScaled p e i)

/-- Fee cap of an attempt: `baseFee * baseMul + tip`. -/
def maxFeeOf (p : Params) (baseFee : Int) (tip : Wei) : Wei :=
  baseFee * p.baseMul + tip

/-- Replacement mode: a pending transaction of the compromised EOA exists. -/
def replaceModeOf (e : AttemptEnv) : Bool :=
  decide (e.latestNonce < e.pendingNonce)

/-- Source nonce for the transfer leg before the replacement shift. -/
def fromNonceOf (e : AttemptEnv) : Nat :=
  if replaceModeOf e then e.latestNonce else e.pendingNonce

/-- Clamp the amount to the live token balance when the `balanceOf` call
returned at least 32 bytes. -/
def clampAmount (amount : Int) (e : AttemptEnv) : Int :=
  match e.tokenBalance with
  | some bal => if bal < amount then bal else amount
  | none => amount

/-- Transfer gas: the estimate when the call succeeded with a positive
value, else the fallback 90000. -/
def gasTransferOf (e : AttemptEnv) : Nat :=
  match e.gasEstimate with
  | some est => if 0 < est then est else 90000
  | none => 90000

/-- Cancel gas: 21000 in replacement mode, else 0. -/
def cancelGasOf (e : AttemptEnv) : Nat :=
  if replaceModeOf e then 21000 else 0

/-- Funding value: `(gasTransfer + cancelGas) * maxFee` scaled by 110/100
with Euclidean (floor) division, exactly as the two `Div`/`Mul` lines of the
source compute it. -/
def prefundWeiOf (gasTransfer cancelGas : Nat) (maxFee : Wei) : Wei :=
  Int.ediv (((gasTransfer + cancelGas : Nat) : Int) * maxFee * 110) 100

/-- Whether the bribe leg is enabled: `BribeWei` present and positive. -/
def bribeEnabled (p : Params) : Bool :=
  match p.bribeWei with
  | some w => decide (0 < w)
  | none => false

/-- Bribe value in wei (0 when disabled). -/
def bribeWeiVal (p : Params) : Wei :=
  if bribeEnabled p then
    match p.bribeWei with
    | some w => w
    | none => 0
  else 0

/-- Bribe gas (0 when disabled; the configured limit, defaulting to 60000,
when enabled). -/
def bribeGasOf (p : Params) : Nat :=
  if bribeEnabled p then
    (if p.bribeGasLimit = 0 then 60000 else p.bribeGasLimit)
  else 0

/-- The solvency requirement actually computed by the source:
`(21000 + bribeGas) * maxFee + prefund + bribeWei`. -/
def needTotalOf (p : Params) (e : AttemptEnv) (maxFee : Wei) : Wei :=
  ((21000 + bribeGasOf p : Nat) : Int) * maxFee
    + prefundWeiOf (gasTransferOf e) (cancelGasOf e) maxFee
    + bribeWeiVal p

/-- A fully assembled per-attempt plan: the optional bribe, the sponsor
funding payment, the optional cancel, and the transfer, all sharing
`(tip, feeCap)`. -/
structure Plan where
  targetBlock : Nat
  baseFee : Int
  tip : Wei
  feeCap : Wei
  replaceMode : Bool
  fromNonce : Nat
  amount : Int
  bribe : Option Tx
  fund : Tx
  cancel : Option Tx
  transfer : Tx
deriving DecidableEq, Repr

/-- The signed transaction list in source order:
bribe (optional), fund, cancel (optional), transfer. -/
def Plan.txs (pl : Plan) : List Tx :=
  pl.bribe.toList ++ [pl.fund] ++ pl.cancel.toList ++ [pl.transfer]

/-- Plan assembly for one attempt, given the resolved base fee and head. -/
def mkPlan (p : Params) (i : Nat) (amount : Int) (e : AttemptEnv)
    (baseFee : Int) (headNum : Nat) : Plan :=
  let tip := tipWeiOf p e i
  let maxFee := maxFeeOf p baseFee tip
  let replaceMode := replaceModeOf e
  let fromNonce := fromNonceOf e
  let amount := clampAmount amount e
  let gasTransfer := gasTransferOf e
  let bribe : Option Tx :=
    if bribeEnabled p then
      some { sender := .sponsor, nonce := e.safeNonce, dest := none,
             value := bribeWeiVal p, gas := bribeGasOf p,
             tip := tip, feeCap := maxFee, data := .bribeInit }
    else none
  let safeNonce := if bribeEnabled p then e.safeNonce + 1 else e.safeNonce
  let fund : Tx :=
    { sender := .sponsor, nonce := safeNonce, dest := some p.fromAddr,
      value := prefundWeiOf gasTransfer (cancelGasOf e) maxFee, gas := 21000,
      tip := tip, feeCap := maxFee, data := .empty }
  let transfer : Tx :=
    { sender := .compromised,
      nonce := if replaceMode then fromNonce + 1 else fromNonce,
      dest := some p.token, value := 0, gas := gasTransfer,
      tip := tip, feeCap := maxFee, data := .erc20Transfer p.toAddr amount }
  let cancel : Option Tx :=
    if replaceMode then
      some { sender := .compromised, nonce := fromNonce, dest := some p.fromAddr,
             value := 0, gas := 21000, tip := tip, feeCap := maxFee,
             data := .empty }
    else none
  { targetBlock := headNum + 1 + i, baseFee := baseFee, tip := tip,
    feeCap := maxFee, replaceMode := replaceMode, fromNonce := fromNonce,
    amount := amount, bribe := bribe, fund := fund, cancel := cancel,
    transfer := transfer }

/-- Outcome of the planning phase of one attempt: an RPC failure that aborts
the run with an error, a fatal outcome with a reason string, or a plan. -/
inductive AttemptResult where
  | rpcFailure (msg : String)
  | fatal (reason : String)
  | plan (pl : Plan)
deriving DecidableEq, Repr

/-- One attempt of the loop body of `Run`, up to and including signing:
base-fee/head resolution, the (unreachable) competing-nonce guard, the
solvency check, and plan assembly. -/
def buildAttempt (p : Params) (i : Nat) (amount : Int) (e : AttemptEnv) :
    AttemptResult :=
  match resolveBaseHead e with
  | none => .rpcFailure "basefee"
  | some (baseFee, headNum) =>
      if e.pendingNonce > fromNonceOf e ∧ ¬ replaceModeOf e then
        .fatal "competing nonce"
      else if e.safeBalance < needTotalOf p e (maxFeeOf p baseFee (tipWeiOf p e i)) then
        .fatal "insufficient SAFE balance for fee+prefund"
      else
        .plan (mkPlan p i amount e baseFee headNum)

/-- Funding-leg value of an attempt result, when a plan was built. -/
def fundValueOf (r : AttemptResult) : Option Wei :=
  match r with
  | .plan pl => some pl.fund.value
  | _ => none

/-- A transaction receipt as the monitor reads it: block number (absent when
the node has none) and status word. -/
structure Receipt where
  blockNumber : Option Nat
  status : Nat
deriving DecidableEq, Repr

/-- What the monitor RPCs returned: whether the bounded wait expired, the
latest-nonce read (`none` = error), and the receipt fetch for the transfer
hash (`none` = error or missing). -/
structure MonitorEnv where
  timedOut : Bool
  latestNonce : Option Nat
  receipt : Option Receipt
deriving DecidableEq, Repr

/-- The acceptance test applied to a fetched receipt in
`waitInclusionOrCompete`: present, at the target block, status successful. -/
def receiptGood (r : Option Receipt) (target : Nat) : Bool :=
  match r with
  | some rc => rc.blockNumber == some target && rc.status == 1
  | none => false

/-- The decision of `waitInclusionOrCompete` once the wait is over: if the
latest nonce advanced past the starting nonce, inclusion of our transfer or
else a competing nonce; otherwise inclusion of our transfer or not
included.  A timed-out wait reports a timeout instead. -/
def waitDecision (m : MonitorEnv) (startNonce target : Nat) : Bool × String :=
  if m.timedOut then (false, "timeout waiting block")
  else
    match m.latestNonce with
    | some n =>
        if startNonce < n then
          if receiptGood m.receipt target then (true, "included")
          else (false, "competing nonce")
        else
          if receiptGood m.receipt target then (true, "included")
          else (false, "not included")
    | none =>
        if receiptGood m.receipt target then (true, "included")
        else (false, "not included")

/-- A string consisting only of whitespace, as `strings.TrimSpace` would
reduce to empty; such relay URLs are dropped by `classifyRelays`. -/
def isBlankStr (s : String) : Bool :=
  s.toList.all (fun c => c = ' ' ∨ c = '\t' ∨ c = '\n' ∨ c = '\r')

/-- Everything the run reads from outside, per attempt index. -/
structure RunEnv where
  pauseProbe : List Nat → Option (List Nat)
  restriction : Option String
  startPending : Option Nat
  att : Nat → AttemptEnv
  mon : Nat → MonitorEnv

/-- Terminal shape of a run: a Go error, or a `Result` with inclusion flag
and reason. -/
inductive RunResult where
  | failure (msg : String)
  | outcome (included : Bool) (reason : String)
deriving DecidableEq, Repr

/-- A run result together with the plans that were fully built and signed,
in attempt order. -/
structure RunTrace where
  result : RunResult
  plans : List Plan
deriving DecidableEq, Repr

/-- Selector catalog of the pause probes, in source order
(`pausedSigs` in src/unnamed/part_012). -/
def pausedSigs : List (List Nat) :=
  [[0x5c, 0x97, 0x5a, 0xbb],
   [0x3f, 0x4b, 0xa8, 0x3a],
   [0x51, 0xdf, 0xf9, 0x89],
   [0x5c, 0x70, 0x1d, 0x2f],
   [0x84, 0x62, 0x15, 0x1c],
   [0x2e, 0x1a, 0x7d, 0x4d],
   [0x0b, 0x3b, 0xaf, 0xd6],
   [0x9c, 0x6a, 0x3b, 0x7c],
   [0x75, 0xf1, 0x2b, 0x21],
   [0x4f, 0x2b, 0xe9, 0x1f],
   [0x0d, 0xfe, 0x16, 0x81]]

/-- Lowercase hex digit of a value below 16, as `encoding/hex` prints it. -/
def hexDigit (n : Nat) : Char :=
  if n < 10 then Char.ofNat (48 + n) else Char.ofNat (87 + n)

/-- `hex.EncodeToString` over a byte list: two lowercase digits per byte. -/
def hexEncode (bs : List Nat) : List Char :=
  bs.flatMap (fun b => [hexDigit (b / 16 % 16), hexDigit (b % 16)])

/-- Whether `s` starts with `pat` (character lists). -/
def startsWithL : List Char → List Char → Bool
  | _, [] => true
  | [], _ :: _ => false
  | a :: s, b :: pt => a == b && startsWithL s pt

/-- Substring test over character lists, as `strings.Contains`. -/
def containsSubL : List Char → List Char → Bool
  | [], pat => pat.isEmpty
  | c :: rest, pat => startsWithL (c :: rest) pat || containsSubL rest pat

/-- Last byte of a call result (callers only use it on nonempty results). -/
def lastByte (res : List Nat) : Nat := (res.getLast?).getD 0

/-- `CheckPaused` from src/unnamed/part_012: walk the selector catalog, skip
errored or empty responses, and decide from the first answering probe.  The
source compares the HEX ENCODING of the selector against the substring
"enabled" to decide whether to invert the boolean. -/
def checkPaused (probe : List Nat → Option (List Nat)) : Bool × Bool :=
  go pausedSigs
where
  go : List (List Nat) → Bool × Bool
  | [] => (false, false)
  | sig :: rest =>
      match probe sig with
      | none => go rest
      | some res =>
          if res = [] then go rest
          else
            let b := lastByte res
            if containsSubL (hexEncode sig) "enabled".toList then
              (true, b == 0)
            else (true, b == 1)

/-- The attempt loop of `Run`: build, then either the simulate-only branch
(relay simulation outcome and nonce re-check) or send plus the inclusion
monitor; continue to the next attempt unless a terminal outcome fires. -/
def runLoop (p : Params) (re : RunEnv) (n0 : Nat) :
    Nat → Nat → Int → List Plan → RunTrace
  | 0, _, _, built => ⟨.outcome false "exhausted attempts", built.reverse⟩
  | fuel + 1, i, amount, built =>
      match buildAttempt p i amount (re.att i) with
      | .rpcFailure m => ⟨.failure m, built.reverse⟩
      | .fatal r => ⟨.outcome false r, built.reverse⟩
      | .plan pl =>
          let built := pl :: built
          if p.simulateOnly then
            if (re.att i).simOK then ⟨.outcome false "simulate only", built.reverse⟩
            else if n0 < (re.att i).nonceRecheck then
              ⟨.outcome false "competing nonce", built.reverse⟩
            else runLoop p re n0 fuel (i + 1) pl.amount built
          else
            let w := waitDecision (re.mon i) n0 pl.targetBlock
            if w.1 then ⟨.outcome true w.2, built.reverse⟩
            else if w.2 = "competing nonce" then
              ⟨.outcome false w.2, built.reverse⟩
            else runLoop p re n0 fuel (i + 1) pl.amount built

/-- The whole of `Run` (src/unnamed/part_015): amount guard, optional pause
pre-check, relay-emptiness guard, parameter normalization, restriction
pre-check, starting-nonce read, then the attempt loop. -/
def runModel (p : Params) (re : RunEnv) : RunTrace :=
  match p.amountWei with
  | none => ⟨.failure "AmountWei must be > 0", []⟩
  | some a =>
      if a ≤ 0 then ⟨.failure "AmountWei must be > 0", []⟩
      else if p.skipIfPaused
          ∧ (checkPaused re.pauseProbe).1 ∧ (checkPaused re.pauseProbe).2 then
        ⟨.outcome false "token paused", []⟩
      else if p.relays.all isBlankStr then
        ⟨.failure "no relays or matchmakers configured", []⟩
      else
        let q := normalizeParams p
        match re.restriction with
        | some s => ⟨.outcome false ("token restricted: " ++ s), []⟩
        | none =>
            match re.startPending with
            | none => ⟨.failure "pending nonce read failed", []⟩
            | some n0 => runLoop q re n0 q.blocks.toNat 0 a []

/-- The outcome of one `eth_call` as `simulateTransferWithOverride` sees it:
a transport/RPC error, an empty (or `"0x"`) result, a well-formed hex result
decoding to the given bytes, or a result whose hex decoding fails. -/
inductive CallRes where
  | rpcErr
  | empty
  | bytes (bs : List Nat)
  | malformed
deriving DecidableEq, Repr

/-- `simulateTransferWithOverride` (preflight7702.go): an RPC error yields
(not ok, nil error); empty results count as success; otherwise a decoded
result of at least 32 bytes ending in 1 counts as success; a hex-decode
failure is the only case with a non-nil error. -/
def simOverride (r : CallRes) : Bool × Option String :=
  match r with
  | .rpcErr => (false, none)
  | .empty => (true, none)
  | .bytes bs => (decide (32 ≤ bs.length) && lastByte bs == 1, none)
  | .malformed => (false, some "bad eth_call result")

/-- Address bytes 12..31 of a factory call result, big-endian. -/
def addrFromBytes (out : List Nat) : Nat :=
  ((out.drop 12).take 20).foldl (fun a b => a * 256 + b) 0

/-- `getV2Pair` (preflight7702.go): the zero address on an errored or short
factory call, else the address in the last 20 of the first 32 bytes. -/
def getV2Pair (factoryRet : Option (List Nat)) : Nat :=
  match factoryRet with
  | none => 0
  | some out => if out.length < 32 then 0 else addrFromBytes out

/-- Chain responses consumed by the delegated-code preflight. -/
structure P7702Env where
  directCall : CallRes
  factoryRet : Option (List Nat)
  pairCall : CallRes
  classicResult : Bool × String × Option String
deriving Repr

/-- `PreflightTransfer7702` (preflight7702.go): nil/zero amount short-cuts
to "no balance"; without a raw RPC client it delegates to the classic
preflight; otherwise probe the direct route, then the V2-pair router route,
never returning a non-nil error itself. -/
def preflight7702 (rcPresent : Bool) (amount : Option Int) (env : P7702Env) :
    Bool × String × Option String :=
  match amount with
  | none => (false, "no balance", none)
  | some a =>
      if a = 0 then (false, "no balance", none)
      else if ¬ rcPresent then env.classicResult
      else
        match simOverride env.directCall with
        | (_, some e) => (false, "preflight error: " ++ e, none)
        | (true, none) => (true, "route=direct", none)
        | (false, none) =>
            if getV2Pair env.factoryRet = 0 then
              (false, "no v2 pair for router path", none)
            else
              match simOverride env.pairCall with
              | (_, some e2) => (false, "preflight error: " ++ e2, none)
              | (true, none) => (true, "route=router", none)
              | (false, none) => (false, "blocked in 7702 context", none)

/-- The digest computations used for relay auth headers, as symbolic
expressions over the request body: raw bytes, keccak-256, the EIP-191 text
hash, and the ASCII hex rendering of a hash. -/
inductive DigestExpr where
  | raw (body : List Nat)
  | keccak (body : List Nat)
  | textHash (d : DigestExpr)
  | hexOfHash (d : DigestExpr)
deriving DecidableEq, Repr

/-- Digest signed by `makeFlashbotsHeader` (src/unnamed/part_017): EIP-191
text hash of the hex string of keccak256(body). -/
def mkFlashbotsHeaderDigest (body : List Nat) : DigestExpr :=
  .textHash (.hexOfHash (.keccak body))

/-- Digest signed by `Client.signBody` (src/internal/flashbots/relay.go):
keccak256(body) directly. -/
def signBodyDigest (body : List Nat) : DigestExpr :=
  .keccak body

/-- Digest signed by the header code of `sendMevBundle` and
`simulateMevBundle` (src/internal/bundlecore/mevrelay.go): EIP-191 text hash
of the raw body. -/
def sendMevBundleDigest (body : List Nat) : DigestExpr :=
  .textHash (.raw body)

/-- Modelled from the spec: the digest the spec asserts every relay auth
header signs, "the EIP-191 text hash of the hex string of keccak256(request
body)". -/
def specClaimDigest (body : List Nat) : DigestExpr :=
  .textHash (.hexOfHash (.keccak body))

/-- Auth-header construction common to the three signing sites: the header
carries the signer address and a signature over the interpretation of the
given digest expression of the body. -/
def mkAuthHeader {K S A : Type} (sign : K → List Nat → S) (addrOf : K → A)
    (interp : DigestExpr → List Nat) (dg : List Nat → DigestExpr)
    (k : K) (body : List Nat) : A × S :=
  (addrOf k, sign k (interp (dg body)))

/-- A concrete injective interpretation of digest expressions, used to
exhibit models of the signing primitives. -/
def evalToy : DigestExpr → List Nat
  | .raw b => 0 :: b
  | .keccak b => 1 :: b
  | .textHash d => 2 :: evalToy d
  | .hexOfHash d => 3 :: evalToy d

/-- Toy signature scheme: a signature records the key and the digest. -/
def toySign (k : Nat) (d : List Nat) : Nat × List Nat := (k, d)

/-- Toy recovery: returns the signing key when the digest matches the one
signed, and a different address otherwise. -/
def toyRecover (s : Nat × List Nat) (d : List Nat) : Nat :=
  if s.2 = d then s.1 else s.1 + 1

/-- Modelled from the spec: the solvency requirement the spec states,
`R = 21000 * c + V + bribe_value`. -/
def specSolvencyR (c v bribe : Wei) : Wei := 21000 * c + v + bribe

/-- Modelled from the spec: the funding value the spec states,
`V = ceil((gx + gc) * c * 1.10)` in wei. -/
def specFundingCeil (g : Nat) (c : Wei) : Wei :=
  -(Int.ediv (-((g : Int) * c * 110)) 100)

/-- A placeholder plan used as the default of `planOf`. -/
def somePlan : Plan :=
  { targetBlock := 0, baseFee := 0, tip := 0, feeCap := 0,
    replaceMode := false, fromNonce := 0, amount := 0, bribe := none,
    fund := ⟨.sponsor, 0, none, 0, 0, 0, 0, .empty⟩, cancel := none,
    transfer := ⟨.sponsor, 0, none, 0, 0, 0, 0, .empty⟩ }

/-- Extract the plan of an attempt result. -/
def planOf (r : AttemptResult) : Plan :=
  match r with
  | .plan pl => pl
  | _ => somePlan

/-- A monitor environment where the wait completes, the nonce did not
advance, and no receipt exists: the not-included case. -/
def monNotIncluded : MonitorEnv := ⟨false, some 0, none⟩

/-- A pause probe where every selector errors. -/
def noProbe : List Nat → Option (List Nat) := fun _ => none

/-- Run parameters with a bribe enabled (value 1 wei, default gas). -/
def pC2 : Params :=
  { amountWei := some 1000, relays := ["classic:r"], blocks := 2,
    tipGweiBase := 1, tipMul := ⟨1, 1⟩, baseMul := 1, bufferPct := 0,
    tipMode := "", bribeWei := some 1, bribeGasLimit := 0,
    simulateOnly := false, skipIfPaused := false,
    token := 11, fromAddr := 12, toAddr := 13 }

/-- Attempt readings with zero base fee, a 1-gas transfer estimate, equal
nonces, and a sponsor balance that meets the claimed requirement but not
the one the code computes. -/
def eC2 : AttemptEnv :=
  { feeHistBase := some 0, headerNum := some 100, fallbackBase := none,
    latestNonce := 0, pendingNonce := 0, tipFeeHist := none, suggest := none,
    tokenBalance := none, gasEstimate := some 1, safeNonce := 0,
    safeBalance := 21001100000001, simOK := false, nonceRecheck := 0 }

/-- Like `eC2` but with an ample sponsor balance, so that planning
proceeds. -/
def eC2w : AttemptEnv := { eC2 with safeBalance := 1000000000000000000 }

/-- Run parameters without a bribe, 3 gwei base tip, unit multipliers. -/
def pC4 : Params :=
  { amountWei := some 1000, relays := ["classic:r"], blocks := 2,
    tipGweiBase := 3, tipMul := ⟨1, 1⟩, baseMul := 1, bufferPct := 0,
    tipMode := "", bribeWei := none, bribeGasLimit := 0,
    simulateOnly := false, skipIfPaused := false,
    token := 11, fromAddr := 12, toAddr := 13 }

/-- Attempt readings with base fee 3 wei and a 1-gas estimate, chosen so
that `(gx + gc) * c * 110` is not divisible by 100. -/
def eC4 : AttemptEnv :=
  { feeHistBase := some 3, headerNum := some 100, fallbackBase := none,
    latestNonce := 0, pendingNonce := 0, tipFeeHist := none, suggest := none,
    tokenBalance := none, gasEstimate := some 1, safeNonce := 0,
    safeBalance := 1000000000000000000, simOK := false, nonceRecheck := 0 }

/-- The plan built from `pC4`/`eC4`. -/
def plW4 : Plan := planOf (buildAttempt pC4 0 1000 eC4)

/-- Attempt readings in replacement mode: pending nonce 6 ahead of latest
nonce 5. -/
def eC1 : AttemptEnv :=
  { feeHistBase := some 0, headerNum := some 10, fallbackBase := none,
    latestNonce := 5, pendingNonce := 6, tipFeeHist := none, suggest := none,
    tokenBalance := none, gasEstimate := some 1, safeNonce := 0,
    safeBalance := 1000000000000000000, simOK := false, nonceRecheck := 0 }

/-- The plan built from `pC4`/`eC1` (replacement mode). -/
def plW1 : Plan := planOf (buildAttempt pC4 0 1000 eC1)

/-- Run parameters for the escalation run: base tip 3 gwei, multiplier
6/5, two attempts. -/
def pC5 : Params :=
  { amountWei := some 1000, relays := ["classic:r"], blocks := 2,
    tipGweiBase := 3, tipMul := ⟨6, 5⟩, baseMul := 1, bufferPct := 0,
    tipMode := "", bribeWei := none, bribeGasLimit := 0,
    simulateOnly := false, skipIfPaused := false,
    token := 11, fromAddr := 12, toAddr := 13 }

/-- First attempt of the escalation run: the node suggests a 100 gwei
priority fee and the header reports head 100. -/
def e0C5 : AttemptEnv :=
  { feeHistBase := some 1, headerNum := some 100, fallbackBase := none,
    latestNonce := 0, pendingNonce := 0, tipFeeHist := none,
    suggest := some 100000000000, tokenBalance := none,
    gasEstimate := some 1, safeNonce := 0,
    safeBalance := 1000000000000000000, simOK := false, nonceRecheck := 0 }

/-- Second attempt of the escalation run: the suggestion is gone and the
header read fails, so the head number defaults to 0. -/
def e1C5 : AttemptEnv :=
  { feeHistBase := some 1, headerNum := none, fallbackBase := none,
    latestNonce := 0, pendingNonce := 0, tipFeeHist := none, suggest := none,
    tokenBalance := none, gasEstimate := some 1, safeNonce := 0,
    safeBalance := 1000000000000000000, simOK := false, nonceRecheck := 0 }

/-- Run environment for the escalation run. -/
def reC5 : RunEnv :=
  ⟨noProbe, none, some 0, fun i => if i = 0 then e0C5 else e1C5,
   fun _ => monNotIncluded⟩

/-- Attempt readings used by every attempt of the zero-window run. -/
def e9 : AttemptEnv :=
  { feeHistBase := some 0, headerNum := some 100, fallbackBase := none,
    latestNonce := 0, pendingNonce := 0, tipFeeHist := none, suggest := none,
    tokenBalance := none, gasEstimate := some 1, safeNonce := 0,
    safeBalance := 1000000000000000000, simOK := false, nonceRecheck := 0 }

/-- Run parameters with a zero block window. -/
def pC9 : Params :=
  { amountWei := some 1000, relays := ["classic:r"], blocks := 0,
    tipGweiBase := 3, tipMul := ⟨1, 1⟩, baseMul := 1, bufferPct := 0,
    tipMode := "", bribeWei := none, bribeGasLimit := 0,
    simulateOnly := false, skipIfPaused := false,
    token := 11, fromAddr := 12, toAddr := 13 }

/-- Run environment for the zero-window run. -/
def reC9 : RunEnv :=
  ⟨noProbe, none, some 0, fun _ => e9, fun _ => monNotIncluded⟩

/-- Preflight chain responses where both the direct eth_call and the
factory call fail with transport errors. -/
def envC8 : P7702Env := ⟨.rpcErr, none, .rpcErr, (false, "", none)⟩

/-- Preflight chain responses where the direct eth_call and the pair
transfer call fail with transport errors but the factory call returns a
pair address of 1. -/
def envC8w : P7702Env :=
  ⟨.rpcErr, some (List.replicate 31 0 ++ [1]), .rpcErr, (false, "", none)⟩

/-- A token that answers only `transferEnabled()` (selector 0x9c6a3b7c),
returning a 32-byte false. -/
def probeEnabledFalse : List Nat → Option (List Nat) :=
  fun sig =>
    if sig = [0x9c, 0x6a, 0x3b, 0x7c] then some (List.replicate 32 0) else none

/-- A token that answers only `transferEnabled()` (selector 0x9c6a3b7c),
returning a 32-byte true. -/
def probeEnabledTrue : List Nat → Option (List Nat) :=
  fun sig =>
    if sig = [0x9c, 0x6a, 0x3b, 0x7c] then
      some (List.replicate 31 0 ++ [1])
    else none

/-- Attempt readings with no suggestion and head 100, used to instantiate
the escalation theorem. -/
def eW5 : AttemptEnv :=
  { feeHistBase := some 1, headerNum := some 100, fallbackBase := none,
    latestNonce := 0, pendingNonce := 0, tipFeeHist := none, suggest := none,
    tokenBalance := none, gasEstimate := some 1, safeNonce := 0,
    safeBalance := 1000000000000000000, simOK := false, nonceRecheck := 0 }

/-- Like `eW5` with head 150. -/
def eW5' : AttemptEnv := { eW5 with headerNum := some 150 }

/-- The competing-nonce guard inside the attempt loop can never fire: when
no replacement is needed the chosen nonce IS the pending nonce. -/
theorem attemptGuard_dead (e : AttemptEnv) :
    ¬(e.pendingNonce > fromNonceOf e ∧ ¬ replaceModeOf e = true) := by
  rintro ⟨h1, h2⟩
  by_cases hlt : e.latestNonce < e.pendingNonce
  · exact h2 (by simp [replaceModeOf, hlt])
  · simp [fromNonceOf, replaceModeOf, hlt] at h1

/-- Inversion: when an attempt produces a plan, it is exactly the plan
`mkPlan` assembles from the resolved base fee and head. -/
theorem buildAttempt_plan_eq {p : Params} {i : Nat} {amount : Int}
    {e : AttemptEnv} {bf : Int} {hd : Nat} {pl : Plan}
    (hres : resolveBaseHead e = some (bf, hd))
    (h : buildAttempt p i amount e = .plan pl) :
    pl = mkPlan p i amount e bf hd := by
  unfold buildAttempt at h
  rw [hres] at h
  dsimp only at h
  rw [if_neg (attemptGuard_dead e)] at h
  by_cases hbal : e.safeBalance < needTotalOf p e (maxFeeOf p bf (tipWeiOf p e i))
  · rw [if_pos hbal] at h
    exact absurd h (by simp)
  · rw [if_neg hbal] at h
    injection h with h
    exact h.symm

/-- When the pending nonce equals the latest nonce the assembled plan has
no cancel leg, the transfer sits at the latest nonce, and the transfer is
the only transaction signed by the compromised EOA. -/
theorem mkPlan_nonreplace (p : Params) (i : Nat) (amount : Int)
    (e : AttemptEnv) (bf : Int) (hd : Nat)
    (hpe : e.pendingNonce = e.latestNonce) :
    (mkPlan p i amount e bf hd).cancel = none ∧
    (mkPlan p i amount e bf hd).transfer.nonce = e.latestNonce ∧
    ∀ t ∈ (mkPlan p i amount e bf hd).txs,
      t.sender = Sender.compromised → t = (mkPlan p i amount e bf hd).transfer := by
  have hrm : replaceModeOf e = false := by simp [replaceModeOf, hpe]
  have hfn : fromNonceOf e = e.latestNonce := by simp [fromNonceOf, hrm, hpe]
  refine ⟨by simp [mkPlan, hrm], by simp [mkPlan, hrm, hfn], ?_⟩
  intro t ht hsend
  cases hbe : bribeEnabled p
  · simp [mkPlan, Plan.txs, hrm, hbe] at ht
    rcases ht with rfl | rfl
    · simp at hsend
    · simp [mkPlan, hrm, hbe]
  · simp [mkPlan, Plan.txs, hrm, hbe] at ht
    rcases ht with rfl | rfl | rfl
    · simp at hsend
    · simp at hsend
    · simp [mkPlan, hrm, hbe]

/-- In replacement mode the assembled plan carries a self-transfer cancel
of the compromised EOA at the latest nonce with zero value, empty data and
gas 21000, the transfer at the next nonce, and cancel and transfer share
the tip and fee cap. -/
theorem mkPlan_replace (p : Params) (i : Nat) (amount : Int)
    (e : AttemptEnv) (bf : Int) (hd : Nat)
    (hlt : e.latestNonce < e.pendingNonce) :
    ∃ c, (mkPlan p i amount e bf hd).cancel = some c ∧
      c ∈ (mkPlan p i amount e bf hd).txs ∧
      c.sender = Sender.compromised ∧ c.dest = some p.fromAddr ∧
      c.nonce = e.latestNonce ∧ c.value = 0 ∧ c.data = TxData.empty ∧
      c.gas = 21000 ∧
      (mkPlan p i amount e bf hd).transfer.nonce = e.latestNonce + 1 ∧
      c.tip = (mkPlan p i amount e bf hd).transfer.tip ∧
      c.feeCap = (mkPlan p i amount e bf hd).transfer.feeCap := by
  have hrm : replaceModeOf e = true := by simp [replaceModeOf, hlt]
  have hfn : fromNonceOf e = e.latestNonce := by simp [fromNonceOf, hrm]
  have hc : (mkPlan p i amount e bf hd).cancel =
      some { sender := Sender.compromised, nonce := fromNonceOf e,
             dest := some p.fromAddr, value := 0, gas := 21000,
             tip := tipWeiOf p e i, feeCap := maxFeeOf p bf (tipWeiOf p e i),
             data := TxData.empty } := by
    simp [mkPlan, hrm]
  refine ⟨_, hc, ?_, by simp, by simp, by simp [hfn], by simp, by simp,
    by simp, by simp [mkPlan, hrm, hfn], by simp [mkPlan, hrm],
    by simp [mkPlan, hrm]⟩
  simp [mkPlan, Plan.txs, hrm]

/-- Claim C1: for every attempt that builds a plan, if the pending nonce of
the compromised EOA equals its latest nonce there is no cancel transaction
and the transfer sits at the latest nonce; if pending exceeds latest the
plan carries a self-transfer cancel of the compromised EOA at the latest
nonce with zero value, empty data and gas 21000, the transfer at latest
plus one, and cancel and transfer carry identical tip and fee cap. -/
theorem plan_nonce_layout (p : Params) (i : Nat) (amount : Int)
    (e : AttemptEnv) (bf : Int) (hd : Nat) (pl : Plan)
    (hres : resolveBaseHead e = some (bf, hd))
    (h : buildAttempt p i amount e = .plan pl) :
    (e.pendingNonce = e.latestNonce →
      pl.cancel = none ∧ pl.transfer.nonce = e.latestNonce ∧
      ∀ t ∈ pl.txs, t.sender = Sender.compromised → t = pl.transfer) ∧
    (e.latestNonce < e.pendingNonce →
      ∃ c, pl.cancel = some c ∧ c ∈ pl.txs ∧
        c.sender = Sender.compromised ∧ c.dest = some p.fromAddr ∧
        c.nonce = e.latestNonce ∧ c.value = 0 ∧ c.data = TxData.empty ∧
        c.gas = 21000 ∧ pl.transfer.nonce = e.latestNonce + 1 ∧
        c.tip = pl.transfer.tip ∧ c.feeCap = pl.transfer.feeCap) := by
  have hpl := buildAttempt_plan_eq hres h
  subst hpl
  exact ⟨mkPlan_nonreplace p i amount e bf hd,
    mkPlan_replace p i amount e bf hd⟩

/-- Witness of claim C1 at a concrete replacement-mode attempt. -/
theorem plan_nonce_layout_witness :
    (eC1.pendingNonce = eC1.latestNonce →
      plW1.cancel = none ∧ plW1.transfer.nonce = eC1.latestNonce ∧
      ∀ t ∈ plW1.txs, t.sender = Sender.compromised → t = plW1.transfer) ∧
    (eC1.latestNonce < eC1.pendingNonce →
      ∃ c, plW1.cancel = some c ∧ c ∈ plW1.txs ∧
        c.sender = Sender.compromised ∧ c.dest = some pC4.fromAddr ∧
        c.nonce = eC1.latestNonce ∧ c.value = 0 ∧ c.data = TxData.empty ∧
        c.gas = 21000 ∧ plW1.transfer.nonce = eC1.latestNonce + 1 ∧
        c.tip = plW1.transfer.tip ∧ c.feeCap = plW1.transfer.feeCap) :=
  plan_nonce_layout pC4 0 1000 eC1 0 10 plW1 rfl (by decide)

/-- Claim C2 (amended): an attempt aborts with the fatal reason
"insufficient SAFE balance for fee+prefund" exactly when the sponsor
balance is below `(21000 + bribe_gas) * c + V + bribe_value`, where
`bribe_gas` is 0 without a bribe and the configured bribe gas limit
(default 60000) with one; with at least that balance, planning and signing
proceed. -/
theorem sponsor_solvency_gate (p : Params) (i : Nat) (amount : Int)
    (e : AttemptEnv) (bf : Int) (hd : Nat)
    (hres : resolveBaseHead e = some (bf, hd)) :
    (buildAttempt p i amount e
        = .fatal "insufficient SAFE balance for fee+prefund"
      ↔ e.safeBalance <
          ((21000 + bribeGasOf p : Nat) : Int)
              * maxFeeOf p bf (tipWeiOf p e i)
            + prefundWeiOf (gasTransferOf e) (cancelGasOf e)
                (maxFeeOf p bf (tipWeiOf p e i))
            + bribeWeiVal p) ∧
    (¬ e.safeBalance <
          ((21000 + bribeGasOf p : Nat) : Int)
              * maxFeeOf p bf (tipWeiOf p e i)
            + prefundWeiOf (gasTransferOf e) (cancelGasOf e)
                (maxFeeOf p bf (tipWeiOf p e i))
            + bribeWeiVal p →
      buildAttempt p i amount e = .plan (mkPlan p i amount e bf hd)) := by
  have hsum : needTotalOf p e (maxFeeOf p bf (tipWeiOf p e i)) =
      ((21000 + bribeGasOf p : Nat) : Int) * maxFeeOf p bf (tipWeiOf p e i)
        + prefundWeiOf (gasTransferOf e) (cancelGasOf e)
            (maxFeeOf p bf (tipWeiOf p e i))
        + bribeWeiVal p := rfl
  rw [← hsum]
  unfold buildAttempt
  rw [hres]
  dsimp only
  rw [if_neg (attemptGuard_dead e)]
  constructor
  · by_cases hbal : e.safeBalance < needTotalOf p e (maxFeeOf p bf (tipWeiOf p e i))
    · rw [if_pos hbal]
      simp [hbal]
    · rw [if_neg hbal]
      simp [hbal]
  · intro hbal
    rw [if_neg hbal]

/-- Witness of claim C2 at a concrete bribe-enabled attempt. -/
theorem sponsor_solvency_gate_witness :
    (buildAttempt pC2 0 1000 eC2
        = .fatal "insufficient SAFE balance for fee+prefund"
      ↔ eC2.safeBalance <
          ((21000 + bribeGasOf pC2 : Nat) : Int)
              * maxFeeOf pC2 0 (tipWeiOf pC2 eC2 0)
            + prefundWeiOf (gasTransferOf eC2) (cancelGasOf eC2)
                (maxFeeOf pC2 0 (tipWeiOf pC2 eC2 0))
            + bribeWeiVal pC2) ∧
    (¬ eC2.safeBalance <
          ((21000 + bribeGasOf pC2 : Nat) : Int)
              * maxFeeOf pC2 0 (tipWeiOf pC2 eC2 0)
            + prefundWeiOf (gasTransferOf eC2) (cancelGasOf eC2)
                (maxFeeOf pC2 0 (tipWeiOf pC2 eC2 0))
            + bribeWeiVal pC2 →
      buildAttempt pC2 0 1000 eC2 = .plan (mkPlan pC2 0 1000 eC2 0 100)) :=
  sponsor_solvency_gate pC2 0 1000 eC2 0 100 rfl

/-- Counterexample to claim C2 as stated: with a bribe of 1 wei the
sponsor balance equals the claimed requirement `21000 * c + V + bribe`
(c = 10^9, V = 1.1 * 10^9), yet the attempt is aborted, because the code
also charges the bribe gas (60000 * c). -/
theorem sponsor_solvency_claimed_formula_fails :
    buildAttempt pC2 0 1000 eC2
      = .fatal "insufficient SAFE balance for fee+prefund" ∧
    maxFeeOf pC2 0 (tipWeiOf pC2 eC2 0) = 1000000000 ∧
    prefundWeiOf (gasTransferOf eC2) (cancelGasOf eC2) 1000000000
      = 1100000000 ∧
    bribeWeiVal pC2 = 1 ∧
    specSolvencyR 1000000000 1100000000 1 ≤ eC2.safeBalance := by
  refine ⟨by decide, by decide, by decide, by decide, by decide⟩

/-- Claim C4 (amended): the funding value paid by the sponsor to the
compromised EOA equals the FLOOR of `(gx + gc) * c * 110 / 100` (Euclidean
division), not the ceiling. -/
theorem funding_value_floor (p : Params) (i : Nat) (amount : Int)
    (e : AttemptEnv) (bf : Int) (hd : Nat) (pl : Plan)
    (hres : resolveBaseHead e = some (bf, hd))
    (h : buildAttempt p i amount e = .plan pl) :
    pl.fund.value =
      Int.ediv (((gasTransferOf e + cancelGasOf e : Nat) : Int)
        * maxFeeOf p bf (tipWeiOf p e i) * 110) 100 ∧
    pl.fund.sender = Sender.sponsor ∧ pl.fund.dest = some p.fromAddr ∧
    pl.fund.gas = 21000 := by
  have hpl := buildAttempt_plan_eq hres h
  subst hpl
  refine ⟨?_, by simp [mkPlan], by simp [mkPlan], by simp [mkPlan]⟩
  simp [mkPlan, prefundWeiOf]

/-- Witness of claim C4 at a concrete attempt. -/
theorem funding_value_floor_witness :
    plW4.fund.value =
      Int.ediv (((gasTransferOf eC4 + cancelGasOf eC4 : Nat) : Int)
        * maxFeeOf pC4 3 (tipWeiOf pC4 eC4 0) * 110) 100 ∧
    plW4.fund.sender = Sender.sponsor ∧ plW4.fund.dest = some pC4.fromAddr ∧
    plW4.fund.gas = 21000 :=
  funding_value_floor pC4 0 1000 eC4 3 100 plW4 rfl (by decide)

/-- Counterexample to claim C4 as stated: at gas 1 and fee cap
3000000003 wei the built funding value is 3300000003 wei (floor), while the
ceiling the claim demands is 3300000004 wei. -/
theorem funding_value_not_ceiling :
    fundValueOf (buildAttempt pC4 0 1000 eC4) = some 3300000003 ∧
    maxFeeOf pC4 3 (tipWeiOf pC4 eC4 0) = 3000000003 ∧
    gasTransferOf eC4 + cancelGasOf eC4 = 1 ∧
    specFundingCeil 1 3000000003 = 3300000004 ∧
    (3300000003 : Int) ≠ 3300000004 := by
  refine ⟨by decide, by decide, by decide, by decide, by decide⟩

/-- Claim C3: once the wait completes without timing out, the monitor
returns included exactly when the receipt of the transfer exists at the
target block with success status; it returns competing-nonce exactly when
that receipt test fails and the latest nonce advanced beyond the starting
nonce; and it returns not-included exactly when neither holds. -/
theorem monitor_decision_characterization (m : MonitorEnv) (n0 t : Nat)
    (hto : m.timedOut = false) :
    (waitDecision m n0 t = (true, "included")
      ↔ receiptGood m.receipt t = true) ∧
    (waitDecision m n0 t = (false, "competing nonce")
      ↔ receiptGood m.receipt t = false ∧
        ∃ n, m.latestNonce = some n ∧ n0 < n) ∧
    (waitDecision m n0 t = (false, "not included")
      ↔ receiptGood m.receipt t = false ∧
        ¬ ∃ n, m.latestNonce = some n ∧ n0 < n) := by
  unfold waitDecision
  rw [hto]
  have hs1 : ("included" : String) ≠ "competing nonce" := by decide
  have hs2 : ("included" : String) ≠ "not included" := by decide
  have hs3 : ("competing nonce" : String) ≠ "not included" := by decide
  cases hn : m.latestNonce with
  | none =>
      cases hr : receiptGood m.receipt t <;>
        simp [hr, hs1, hs2, hs3, Prod.ext_iff]
  | some n =>
      by_cases hlt : n0 < n <;>
        cases hr : receiptGood m.receipt t <;>
          simp [hlt, hr, hs1, hs2, hs3, hs3.symm, Prod.ext_iff]

/-- Witness of claim C3 at a concrete advanced-nonce reading. -/
theorem monitor_decision_witness :
    (waitDecision ⟨false, some 5, none⟩ 3 7 = (true, "included")
      ↔ receiptGood (none : Option Receipt) 7 = true) ∧
    (waitDecision ⟨false, some 5, none⟩ 3 7 = (false, "competing nonce")
      ↔ receiptGood (none : Option Receipt) 7 = false ∧
        ∃ n, (some 5 : Option Nat) = some n ∧ 3 < n) ∧
    (waitDecision ⟨false, some 5, none⟩ 3 7 = (false, "not included")
      ↔ receiptGood (none : Option Receipt) 7 = false ∧
        ¬ ∃ n, (some 5 : Option Nat) = some n ∧ 3 < n) :=
  monitor_decision_characterization ⟨false, some 5, none⟩ 3 7 rfl

/-- Claim C6: the branch of CheckPaused meant to invert enabled-style
probes tests the substring "enabled" against the HEX encoding of the
selector, which never matches; hence a token whose transferEnabled()
returns false is reported NOT paused and one returning true IS reported
paused, inverting the documented meaning. -/
theorem checkPaused_enabled_probes_inverted :
    pausedSigs.all
      (fun sig => !containsSubL (hexEncode sig) "enabled".toList) = true ∧
    checkPaused probeEnabledFalse = (true, false) ∧
    checkPaused probeEnabledTrue = (true, true) := by
  refine ⟨by decide, by decide, by decide⟩

/-- Claim C10: PreflightTransfer7702 with a nil or zero amount returns
not-transferable with reason "no balance" for every environment, hence
without consulting the chain. -/
theorem preflight_zero_amount_short_circuit (rcPresent : Bool)
    (env : P7702Env) :
    preflight7702 rcPresent none env = (false, "no balance", none) ∧
    preflight7702 rcPresent (some 0) env = (false, "no balance", none) :=
  ⟨rfl, rfl⟩

/-- Witness of claim C10 at a concrete environment. -/
theorem preflight_zero_amount_witness :
    preflight7702 true none envC8 = (false, "no balance", none) ∧
    preflight7702 true (some 0) envC8 = (false, "no balance", none) :=
  preflight_zero_amount_short_circuit true envC8

/-- Counterexample to claim C8 as stated: with the direct eth_call and the
factory call both failing with transport errors, the preflight returns the
permanent verdict "no v2 pair for router path" with a nil error instead of
propagating the transient failure. -/
theorem preflight_rpc_error_becomes_verdict :
    preflight7702 true (some 5) envC8
      = (false, "no v2 pair for router path", none) ∧
    envC8.directCall = CallRes.rpcErr ∧ envC8.factoryRet = none := by
  refine ⟨by decide, by decide, by decide⟩

/-- Claim C8 (amended): the delegated-code preflight never returns a
non-nil error; a failed direct eth_call falls through to the router probe,
a failed factory call is folded into "no v2 pair for router path", and a
failed pair call into "blocked in 7702 context". -/
theorem preflight_swallows_rpc_errors (amount : Int) (env : P7702Env)
    (ha : amount ≠ 0) :
    (preflight7702 true (some amount) env).2.2 = none ∧
    (env.directCall = CallRes.rpcErr → getV2Pair env.factoryRet = 0 →
      preflight7702 true (some amount) env
        = (false, "no v2 pair for router path", none)) ∧
    (env.directCall = CallRes.rpcErr → getV2Pair env.factoryRet ≠ 0 →
      env.pairCall = CallRes.rpcErr →
      preflight7702 true (some amount) env
        = (false, "blocked in 7702 context", none)) := by
  obtain ⟨dc, fr, pc, cr⟩ := env
  refine ⟨?_, ?_, ?_⟩
  · cases dc <;> cases pc <;>
      simp [preflight7702, ha, simOverride] <;>
      (repeat' split) <;> simp_all
  · intro hdc hpair
    simp only at hdc
    subst hdc
    simp [preflight7702, ha, simOverride, hpair]
  · intro hdc hpair hpc
    simp only at hdc hpc
    subst hdc
    subst hpc
    simp [preflight7702, ha, simOverride, hpair]

/-- Witness of claim C8 at a concrete environment with both calls
failing and a present pair. -/
theorem preflight_swallows_rpc_errors_witness :
    (preflight7702 true (some 5) envC8w).2.2 = none ∧
    (envC8w.directCall = CallRes.rpcErr → getV2Pair envC8w.factoryRet = 0 →
      preflight7702 true (some 5) envC8w
        = (false, "no v2 pair for router path", none)) ∧
    (envC8w.directCall = CallRes.rpcErr → getV2Pair envC8w.factoryRet ≠ 0 →
      envC8w.pairCall = CallRes.rpcErr →
      preflight7702 true (some 5) envC8w
        = (false, "blocked in 7702 context", none)) :=
  preflight_swallows_rpc_errors 5 envC8w (by decide)

/-- Counterexample to claim C9 as stated: with the block window set to 0
the run does not fail fast; the window is normalized to 6 and six plans
are built before the run ends with "exhausted attempts". -/
theorem zero_window_runs_six_attempts :
    (runModel pC9 reC9).result = .outcome false "exhausted attempts" ∧
    (runModel pC9 reC9).plans.length = 6 ∧
    pC9.blocks = 0 := by
  refine ⟨by decide, by decide, by decide⟩

/-- Claim C9 (amended): a run configured with a zero block window behaves
exactly like a run configured with the default window of six attempts; no
fail-fast outcome exists for a zero window. -/
theorem zero_window_defaults_to_six (p : Params) (re : RunEnv) :
    runModel { p with blocks := 0 } re = runModel { p with blocks := 6 } re := by
  have h : normalizeParams { p with blocks := 0 }
      = normalizeParams { p with blocks := 6 } := by
    simp [normalizeParams]
  unfold runModel
  rw [h]

/-- Witness of claim C9 at the concrete zero-window run. -/
theorem zero_window_defaults_witness :
    runModel { pC9 with blocks := 0 } reC9
      = runModel { pC9 with blocks := 6 } reC9 :=
  zero_window_defaults_to_six pC9 reC9

/-- Counterexample to claim C5 as stated: a two-attempt run in which the
suggested priority fee disappears and the header read fails between
attempts; the tips are 100 gwei then 4 gwei (strictly decreasing) and the
target blocks are 101 then 2 (strictly decreasing). -/
theorem escalation_not_monotone :
    (runModel pC5 reC5).result = .outcome false "exhausted attempts" ∧
    (runModel pC5 reC5).plans.map (fun pl => (pl.tip, pl.targetBlock))
      = [(100000000000, 101), (4000000000, 2)] ∧
    (4000000000 : Int) < 100000000000 ∧ (2 : Nat) < 101 := by
  refine ⟨by decide, by decide, by decide, by decide⟩

/-- Cross-multiplied floor monotonicity for Euclidean division with
positive divisors. -/
theorem ediv_le_ediv_cross {a b c d : Int} (hb : 0 < b) (hd : 0 < d)
    (h : a * d ≤ c * b) : Int.ediv a b ≤ Int.ediv c d := by
  rw [show Int.ediv a b = a / b from rfl, show Int.ediv c d = c / d from rfl]
  rw [Int.le_ediv_iff_mul_le hd]
  have h1 : a / b * b ≤ a := Int.ediv_mul_le a hb.ne'
  have h2 : a / b * d * b ≤ c * b := by
    calc a / b * d * b = a / b * b * d := by ring
      _ ≤ a * d := by exact mul_le_mul_of_nonneg_right h1 hd.le
      _ ≤ c * b := h
  exact le_of_mul_le_mul_right h2 hb

/-- A Euclidean quotient is at least one when the dividend is at least the
positive divisor. -/
theorem one_le_ediv_cross {a b : Int} (hb : 0 < b) (h : b ≤ a) :
    1 ≤ Int.ediv a b := by
  rw [show Int.ediv a b = a / b from rfl]
  rw [Int.le_ediv_iff_mul_le hb]
  omega

/-- Numerator of a fraction power. -/
theorem Frac.pow_num (a : Frac) (n : Nat) : (a.pow n).num = a.num ^ n := by
  induction n with
  | zero => simp [Frac.pow]
  | succ k ih => simp [Frac.pow, Frac.mul, pow_succ, ih]

/-- Denominator of a fraction power. -/
theorem Frac.pow_den (a : Frac) (n : Nat) : (a.pow n).den = a.den ^ n := by
  induction n with
  | zero => simp [Frac.pow]
  | succ k ih => simp [Frac.pow, Frac.mul, pow_succ, ih]

/-- On nonnegative values Go rounding is the floor of the value plus one
half. -/
theorem goRound_nonneg_eq (q : Frac) (hq : 0 ≤ q.num) :
    goRound q = Int.ediv (q.num * 2 + 1 * q.den) (q.den * 2) := by
  unfold goRound
  rw [if_neg]
  · rfl
  · simp [Frac.lt, Frac.ofInt]
    omega

/-- Go rounding of a value at least one is at least one. -/
theorem goRound_one_le (q : Frac) (hd : 0 < q.den) (h : q.den ≤ q.num) :
    1 ≤ goRound q := by
  rw [goRound_nonneg_eq q (le_trans hd.le h)]
  apply one_le_ediv_cross (by positivity)
  omega

/-- Go rounding is monotone on nonnegative values (cross-multiplied
order, positive denominators). -/
theorem goRound_mono (q r : Frac) (hqd : 0 < q.den) (hrd : 0 < r.den)
    (hqn : 0 ≤ q.num) (h : q.num * r.den ≤ r.num * q.den) :
    goRound q ≤ goRound r := by
  have hrn : 0 ≤ r.num := by nlinarith
  rw [goRound_nonneg_eq q hqn, goRound_nonneg_eq r hrn]
  apply ediv_le_ediv_cross (by positivity) (by positivity)
  nlinarith

/-- The scaled base tip grows with the attempt index when the multiplier
is at least one. -/
theorem scaled_pow_cross (b : Int) (m : Frac) (i : Nat) (hb : 1 ≤ b)
    (hden : 0 < m.den) (hm : m.den ≤ m.num) :
    ((Frac.ofInt b).mul (m.pow i)).num * ((Frac.ofInt b).mul (m.pow (i + 1))).den
      ≤ ((Frac.ofInt b).mul (m.pow (i + 1))).num
          * ((Frac.ofInt b).mul (m.pow i)).den := by
  have hmn : 0 < m.num := lt_of_lt_of_le hden hm
  have hdp : (0 : Int) < m.den ^ i := pow_pos hden i
  have hnp : (0 : Int) < m.num ^ i := pow_pos hmn i
  simp only [Frac.mul, Frac.ofInt, Frac.pow_num, Frac.pow_den, pow_succ]
  nlinarith [mul_le_mul_of_nonneg_left hm (le_of_lt (mul_pos hnp hdp))]

/-- The effective base tip never drops below the configured base tip. -/
theorem fixedTipGweiBase_ge (p : Params) (e : AttemptEnv) :
    p.tipGweiBase ≤ fixedTipGweiBase p e := by
  unfold fixedTipGweiBase
  cases e.suggest
  · simp
  · simp only []
    split <;> omega

/-- The fixed-escalation tip is monotone across consecutive attempts when
the multiplier is at least one, the base tip is at least one, and the
suggested fee reading is unchanged. -/
theorem fixedTipGweiScaled_mono (p : Params) (e e' : AttemptEnv) (i : Nat)
    (hden : 0 < p.tipMul.den) (hm : p.tipMul.den ≤ p.tipMul.num)
    (hb : 1 ≤ p.tipGweiBase) (hs : e'.suggest = e.suggest) :
    fixedTipGweiScaled p e i ≤ fixedTipGweiScaled p e' (i + 1) := by
  have hmn : 0 < p.tipMul.num := lt_of_lt_of_le hden hm
  have hbase : fixedTipGweiBase p e' = fixedTipGweiBase p e := by
    unfold fixedTipGweiBase
    rw [hs]
  have hb1 : 1 ≤ fixedTipGweiBase p e := le_trans hb (fixedTipGweiBase_ge p e)
  have hdlenum : ∀ j : Nat,
      ((Frac.ofInt (fixedTipGweiBase p e)).mul (p.tipMul.pow j)).den
        ≤ ((Frac.ofInt (fixedTipGweiBase p e)).mul (p.tipMul.pow j)).num := by
    intro j
    simp only [Frac.mul, Frac.ofInt, Frac.pow_num, Frac.pow_den, one_mul]
    calc p.tipMul.den ^ j ≤ p.tipMul.num ^ j :=
          pow_le_pow_left₀ hden.le hm j
      _ = 1 * p.tipMul.num ^ j := (one_mul _).symm
      _ ≤ fixedTipGweiBase p e * p.tipMul.num ^ j :=
          mul_le_mul_of_nonneg_right hb1 (pow_pos hmn j).le
  have hdpos : ∀ j : Nat,
      0 < ((Frac.ofInt (fixedTipGweiBase p e)).mul (p.tipMul.pow j)).den := by
    intro j
    simp only [Frac.mul, Frac.ofInt, Frac.pow_den, one_mul]
    exact pow_pos hden j
  have h1 : 1 ≤ goRound ((Frac.ofInt (fixedTipGweiBase p e)).mul (p.tipMul.pow i)) :=
    goRound_one_le _ (hdpos i) (hdlenum i)
  have h2 : 1 ≤ goRound
      ((Frac.ofInt (fixedTipGweiBase p e)).mul (p.tipMul.pow (i + 1))) :=
    goRound_one_le _ (hdpos (i + 1)) (hdlenum (i + 1))
  unfold fixedTipGweiScaled
  rw [hbase]
  rw [if_neg (not_lt.2 h1), if_neg (not_lt.2 h2)]
  have hnum_nonneg :
      0 ≤ ((Frac.ofInt (fixedTipGweiBase p e)).mul (p.tipMul.pow i)).num := by
    simp only [Frac.mul, Frac.ofInt, Frac.pow_num]
    exact mul_nonneg (le_trans zero_le_one hb1) (pow_pos hmn i).le
  exact goRound_mono _ _ (hdpos i) (hdpos (i + 1)) hnum_nonneg
    (scaled_pow_cross (fixedTipGweiBase p e) p.tipMul i hb1 hden hm)

/-- Claim C5 (amended): in the fixed tip mode, when the tip multiplier is
at least one, the base tip is at least one, the suggested-fee reading is
unchanged between consecutive attempts, and the resolved head number does
not decrease, the tip is monotone non-decreasing and the target block
strictly increases between consecutive attempts.  Without these stability
conditions both parts fail (see the counterexample run). -/
theorem attempt_escalation_monotone (p : Params) (e e' : AttemptEnv) (i : Nat)
    (hmode : ¬ lowerAscii p.tipMode = "feehist".data)
    (hden : 0 < p.tipMul.den) (hm : p.tipMul.den ≤ p.tipMul.num)
    (hb : 1 ≤ p.tipGweiBase) (hs : e'.suggest = e.suggest)
    (hhead : ∀ h h', (resolveBaseHead e).map Prod.snd = some h →
      (resolveBaseHead e').map Prod.snd = some h' → h ≤ h') :
    tipWeiOf p e i ≤ tipWeiOf p e' (i + 1) ∧
    (∀ t t', targetBlockOf i e = some t →
      targetBlockOf (i + 1) e' = some t' → t < t') := by
  constructor
  · unfold tipWeiOf
    rw [if_neg hmode, if_neg hmode]
    unfold gweiToWei
    exact mul_le_mul_of_nonneg_right
      (fixedTipGweiScaled_mono p e e' i hden hm hb hs) (by norm_num)
  · intro t t' ht ht'
    cases hre : resolveBaseHead e with
    | none => simp [targetBlockOf, hre] at ht
    | some x =>
        cases hre' : resolveBaseHead e' with
        | none => simp [targetBlockOf, hre'] at ht'
        | some x' =>
            simp [targetBlockOf, hre] at ht
            simp [targetBlockOf, hre'] at ht'
            have := hhead x.2 x'.2 (by simp [hre]) (by simp [hre'])
            omega

/-- Witness of claim C5 at concrete consecutive attempts with stable
readings. -/
theorem attempt_escalation_monotone_witness :
    tipWeiOf pC5 eW5 0 ≤ tipWeiOf pC5 eW5' 1 ∧ (101 : Nat) < 152 := by
  have h := attempt_escalation_monotone pC5 eW5 eW5' 0 (by decide) (by decide)
    (by decide) (by decide) rfl
    (by
      intro a b h1 h2
      simp [resolveBaseHead, eW5, eW5'] at h1 h2
      omega)
  exact ⟨h.1, h.2 101 152 rfl rfl⟩

/-- Claim C7 (amended): each signing site produces a header whose
signature recovers to the signer address under the digest that site
actually signs: makeFlashbotsHeader signs the EIP-191 text hash of the hex
string of keccak256(body) (the digest the spec names), sendMevBundle signs
the EIP-191 text hash of the raw body, and the flashbots package signBody
signs keccak256(body) directly. -/
theorem auth_header_digests {K S A : Type} (sign : K → List Nat → S)
    (recover : S → List Nat → A) (addrOf : K → A)
    (interp : DigestExpr → List Nat) (k : K) (body : List Nat)
    (hrt : ∀ key d, recover (sign key d) d = addrOf key) :
    recover (mkAuthHeader sign addrOf interp mkFlashbotsHeaderDigest k body).2
        (interp (specClaimDigest body))
      = (mkAuthHeader sign addrOf interp mkFlashbotsHeaderDigest k body).1 ∧
    recover (mkAuthHeader sign addrOf interp sendMevBundleDigest k body).2
        (interp (sendMevBundleDigest body))
      = (mkAuthHeader sign addrOf interp sendMevBundleDigest k body).1 ∧
    recover (mkAuthHeader sign addrOf interp signBodyDigest k body).2
        (interp (signBodyDigest body))
      = (mkAuthHeader sign addrOf interp signBodyDigest k body).1 ∧
    mkFlashbotsHeaderDigest body = specClaimDigest body :=
  ⟨hrt k (interp (mkFlashbotsHeaderDigest body)),
   hrt k (interp (sendMevBundleDigest body)),
   hrt k (interp (signBodyDigest body)), rfl⟩

/-- Witness of claim C7 in a concrete model of the signing primitives. -/
theorem auth_header_digests_witness :
    toyRecover (mkAuthHeader toySign id evalToy mkFlashbotsHeaderDigest 7 [1, 2]).2
        (evalToy (specClaimDigest [1, 2]))
      = (mkAuthHeader toySign id evalToy mkFlashbotsHeaderDigest 7 [1, 2]).1 ∧
    toyRecover (mkAuthHeader toySign id evalToy sendMevBundleDigest 7 [1, 2]).2
        (evalToy (sendMevBundleDigest [1, 2]))
      = (mkAuthHeader toySign id evalToy sendMevBundleDigest 7 [1, 2]).1 ∧
    toyRecover (mkAuthHeader toySign id evalToy signBodyDigest 7 [1, 2]).2
        (evalToy (signBodyDigest [1, 2]))
      = (mkAuthHeader toySign id evalToy signBodyDigest 7 [1, 2]).1 ∧
    mkFlashbotsHeaderDigest [1, 2] = specClaimDigest [1, 2] :=
  auth_header_digests toySign toyRecover id evalToy 7 [1, 2]
    (fun key d => by simp [toyRecover, toySign])

/-- Counterexample to claim C7 as stated: the digest signed by signBody is
keccak256(body), not the claimed text hash of its hex string, and the
digest signed by sendMevBundle is the text hash of the raw body; in a
model of the signing primitives satisfying the recovery law, recovery of
those headers under the claimed digest does not return the signer. -/
theorem signBody_digest_differs :
    signBodyDigest [1, 2] ≠ specClaimDigest [1, 2] ∧
    sendMevBundleDigest [1, 2] ≠ specClaimDigest [1, 2] ∧
    toyRecover (toySign 7 (evalToy (signBodyDigest [1, 2])))
        (evalToy (signBodyDigest [1, 2])) = 7 ∧
    toyRecover (mkAuthHeader toySign id evalToy signBodyDigest 7 [1, 2]).2
        (evalToy (specClaimDigest [1, 2])) ≠ 7 ∧
    toyRecover (mkAuthHeader toySign id evalToy sendMevBundleDigest 7 [1, 2]).2
        (evalToy (specClaimDigest [1, 2])) ≠ 7 := by
  refine ⟨by decide, by decide, by decide, by decide, by decide⟩
